import Mathlib

/-!
Verification development for the FEAST recipe-assistant conversation core
(`backend/core/conversation.py`, `backend/core/llm.py`,
`backend/core/spoonacular.py`).

Python strings are embedded as `List Char`; every function below is a
shallow embedding of the correspondingly named Python function, translated
line by line from the source.  Network and LLM collaborators are passed in
as explicit oracle arguments (the list of per-attempt HTTP outcomes, the
titles a search returns), so each embedded function is a pure, executable
Lean function.
-/

namespace Feast

/-- Python `str` as a list of characters. -/
abbrev Str := List Char

/-- Characters of a Lean string literal, used to transcribe Python literals. -/
def strL (s : String) : Str := s.data

/-- The apostrophe character (code point 39). -/
def apos : Char := Char.ofNat 39

/-- Python `\s` (ASCII subset): space, newline, tab, carriage return. -/
def isSpaceCh (c : Char) : Bool := c == ' ' || c == '\n' || c == '\t' || c == '\r'

/-- Python regex `\w` (ASCII subset): alphanumeric or underscore. -/
def isWordCh (c : Char) : Bool := c.isAlphanum || c == '_'

/-- The character class `[\w\s'-]` used by the dish-name capture groups. -/
def isDishCh (c : Char) : Bool := isWordCh c || isSpaceCh c || c == apos || c == '-'

/-- Python `str.lower()` (ASCII subset). -/
def lcStr (s : Str) : Str := s.map Char.toLower

/-- Does `pat` occur at the very start of `s` (case-sensitive)? -/
def strStarts : Str → Str → Bool
  | [], _ => true
  | _ :: _, [] => false
  | p :: ps, c :: cs => p == c && strStarts ps cs

/-- Does `pat` occur at the very start of `s`, comparing `s` lowercased?
`pat` is expected pre-lowercased. -/
def strStartsCI : Str → Str → Bool
  | [], _ => true
  | _ :: _, [] => false
  | p :: ps, c :: cs => c.toLower == p && strStartsCI ps cs

/-- Python `pat in s`: substring containment. -/
def strHas (pat : Str) : Str → Bool
  | [] => pat.isEmpty
  | c :: cs => strStarts pat (c :: cs) || strHas pat cs

/-- Python `s.lstrip()`. -/
def lstripStr (s : Str) : Str := s.dropWhile (fun c => isSpaceCh c)

/-- Python `s.rstrip()`. -/
def rstripStr (s : Str) : Str := ((s.reverse).dropWhile (fun c => isSpaceCh c)).reverse

/-- Python `s.strip()`. -/
def stripStr (s : Str) : Str := rstripStr (lstripStr s)

/-- Python `s.split()` with no argument: split on whitespace runs, dropping
empty pieces. -/
def splitWs (s : Str) : List Str := (s.splitOnP (fun c => isSpaceCh c)).filter (fun w => ¬w.isEmpty)

/-- Python `s.isdigit()` (ASCII subset). -/
def isDigitStr (s : Str) : Bool := ¬s.isEmpty && s.all Char.isDigit

/-!
### Data model (`conversation.py`, dataclasses)
-/

/-- `ConversationContext` (conversation.py lines 90-104); `skill_level`,
`servings`, `flavor_preferences` and `dislikes` are carried but never
touched by the embedded functions, exactly as in the source lines modelled. -/
structure ConversationContext where
  ingredients : List Str := []
  allergies : List Str := []
  cuisine_preference : Str := []
  dietary_restrictions : List Str := []
  meal_type : Str := []
  cooking_time : Str := []
  skill_level : Str := []
  servings : Nat := 0
  flavor_preferences : List Str := []
  dislikes : List Str := []
  has_enough_context : Bool := false
  last_recommended_recipes : List Str := []
deriving DecidableEq, Repr

/-- `ConversationContext.to_summary` (lines 106-123). -/
def toSummary (ctx : ConversationContext) : Str :=
  let parts : List Str :=
    (if ¬ctx.ingredients.isEmpty then
      [strL "Ingredients: " ++ List.intercalate (strL ", ") ctx.ingredients] else []) ++
    (if ¬ctx.allergies.isEmpty then
      [strL "Allergies/Avoid: " ++ List.intercalate (strL ", ") ctx.allergies] else []) ++
    (if ¬ctx.cuisine_preference.isEmpty then
      [strL "Cuisine: " ++ ctx.cuisine_preference] else []) ++
    (if ¬ctx.dietary_restrictions.isEmpty then
      [strL "Diet: " ++ List.intercalate (strL ", ") ctx.dietary_restrictions] else []) ++
    (if ¬ctx.meal_type.isEmpty then [strL "Meal type: " ++ ctx.meal_type] else []) ++
    (if ¬ctx.cooking_time.isEmpty then [strL "Time: " ++ ctx.cooking_time] else []) ++
    (if ¬ctx.dislikes.isEmpty then
      [strL "Dislikes: " ++ List.intercalate (strL ", ") ctx.dislikes] else [])
  if parts.isEmpty then strL "No preferences specified yet"
  else List.intercalate (strL "\n") parts

/-- `ConversationPhase` (lines 36-41). -/
inductive ConversationPhase where
  | discovery
  | narrowing
  | commitment
  | execution
  | adaptation
deriving DecidableEq, Repr

/-- `AssistantIntent` (lines 44-50). -/
inductive AssistantIntent where
  | ask_clarifying_question
  | suggest_options
  | confirm_choice
  | provide_guidance
  | adapt_recipe
  | teach_concept
deriving DecidableEq, Repr

/-- `Strategy` (lines 28-33). -/
inductive Strategy where
  | exact_search
  | loose_search
  | ingredient_reasoning
  | no_search
deriving DecidableEq, Repr

/-- `ActiveRecipe` (lines 53-57). -/
structure ActiveRecipe where
  recipe_id : Str
  recipe_name : Str
  source : Str := strL "spoonacular"
deriving DecidableEq, Repr

/-- `IntentAnalysis` (lines 80-87); `intent` is the Python string label. -/
structure IntentAnalysis where
  intent : Str
  required_ingredients : List Str
  optional_ingredients : List Str
  hard_constraints : List Str
  soft_constraints : List Str
  dish_name : Option Str
deriving DecidableEq, Repr

/-- `ConversationState` (lines 60-77). -/
structure ConversationState where
  phase : ConversationPhase
  assistant_intent : AssistantIntent
  user_goal_summary : Str
  active_recipe : Option ActiveRecipe := none
  diet : Option Str := none
  allergies : List Str := []
  cuisine : Option Str := none
  meal_type : Option Str := none
  time_constraint_minutes : Option Nat := none
  recipes_shown : Bool := false
  recipe_expanded : Bool := false
  allow_recipe_identity_clarification : Bool := true
deriving DecidableEq, Repr

/-!
### Intent/constraint analysis (`analyze_intent_and_constraints`, lines 384-443)
-/

/-- The ordered alternatives of the dish regex
`(?:recipe for|how to make|make|cook|prepare)` (line 394). -/
def dishAlts : List Str :=
  [strL "recipe for", strL "how to make", strL "make", strL "cook", strL "prepare"]

/-- Try one alternative of the dish regex at the head of `s`: the alternative,
then `\s+`, then the capture `([\w\s'-]{3,})`.  Since `\s ⊆ [\w\s'-]`, the
regex (with backtracking between the greedy `\s+` and the capture) succeeds
exactly when the first character after the alternative is whitespace and the
`[\w\s'-]` run after that character has length at least 3, and the stripped
capture is that run stripped. -/
def dishTryAlt (alt : Str) (s : Str) : Option Str :=
  if strStarts alt s then
    match List.drop alt.length s with
    | [] => none
    | c :: tl =>
      if isSpaceCh c then
        let run := tl.takeWhile isDishCh
        if 3 ≤ run.length then some (stripStr run) else none
      else none
  else none

/-- All alternatives of the dish regex at one position, in the regex's order. -/
def dishMatchAt (s : Str) : Option Str :=
  dishAlts.findSome? (fun alt => dishTryAlt alt s)

/-- `re.search` of the dish regex: leftmost position wins. -/
def dishSearch : Str → Option Str
  | [] => none
  | c :: tl =>
    match dishMatchAt (c :: tl) with
    | some d => some d
    | none => dishSearch tl

/-- Length of the separator of `re.split(r"[,/]| with | using | and ", text)`
starting at `s`, if any, alternatives in the regex's order. -/
def sepAt (s : Str) : Option Nat :=
  if strStarts (strL ",") s then some 1
  else if strStarts (strL "/") s then some 1
  else if strStarts (strL " with ") s then some 6
  else if strStarts (strL " using ") s then some 7
  else if strStarts (strL " and ") s then some 5
  else none

/-- `re.split(r"[,/]| with | using | and ", text)` (line 401).  Structural
recursion on a fuel bound: each step consumes at least one character, so
fuel `s.length` always suffices and the fuel-exhaustion arm is unreachable
from `splitSeps`. -/
def splitSepsGo (acc : Str) : Nat → Str → List Str
  | _, [] => [acc.reverse]
  | 0, s => [acc.reverse ++ s]
  | fuel + 1, c :: rest =>
    match sepAt (c :: rest) with
    | some n => acc.reverse :: splitSepsGo [] fuel (List.drop (n - 1) rest)
    | none => splitSepsGo (c :: acc) fuel rest

/-- Token list of the ingredient-cue split. -/
def splitSeps (s : Str) : List Str := splitSepsGo [] s.length s

/-- `diet_flags` (line 408). -/
def dietFlags : List Str :=
  [strL "vegan", strL "vegetarian", strL "keto", strL "paleo", strL "gluten-free",
   strL "dairy-free", strL "low carb", strL "low-carb", strL "healthy"]

/-- `time_flags` (line 409). -/
def timeFlags : List Str :=
  [strL "15 min", strL "20 min", strL "30 min", strL "quick", strL "fast",
   strL "under 20", strL "under 30"]

/-- `allergy_flags` (line 410). -/
def allergyFlags : List Str :=
  [strL "allergic", strL "avoid", strL "can't eat", strL "no ", strL "without"]

/-- The learning keywords of the intent classifier (line 423). -/
def learningKws : List Str :=
  [strL "how to", strL "difference between", strL "what is", strL "technique", strL "why"]

/-- The browsing keywords of the intent classifier (line 431). -/
def browsingKws : List Str :=
  [strL "anything", strL "ideas", strL "bored", strL "inspire", strL "inspiration",
   strL "suggest"]

/-- `analyze_intent_and_constraints` (lines 384-443). -/
def analyzeIntentAndConstraints (userMessage : Str) (ctx : ConversationContext) :
    IntentAnalysis :=
  let text := lcStr userMessage
  let dish := dishSearch text
  let optionalIngredients :=
    if strHas (strL ",") text || strHas (strL " with ") text || strHas (strL " using ") text then
      (splitSeps text).filterMap (fun tok =>
        let tok := stripStr tok
        if ¬tok.isEmpty && (splitWs tok).length ≤ 3 && ¬isDigitStr tok then some tok else none)
    else []
  let softConstraints :=
    (if dietFlags.any (fun f => strHas f text) then [strL "dietary preference"] else []) ++
    (if timeFlags.any (fun f => strHas f text) then [strL "time: quick"] else []) ++
    ctx.dietary_restrictions.map (fun d => strL "diet: " ++ d)
  let hardConstraints :=
    (if allergyFlags.any (fun f => strHas f text) then [strL "allergy/avoid"] else []) ++
    ctx.allergies.map (fun a => strL "avoid: " ++ a)
  let intent :=
    if learningKws.any (fun w => strHas w text) then strL "learning"
    else if dish.isSome then strL "specific_dish"
    else if ¬optionalIngredients.isEmpty then strL "ingredient_based"
    else if ¬softConstraints.isEmpty || ¬hardConstraints.isEmpty then strL "constraint_based"
    else if browsingKws.any (fun w => strHas w text) then strL "browsing"
    else strL "browsing"
  { intent := intent
    required_ingredients := []
    optional_ingredients := optionalIngredients
    hard_constraints := hardConstraints
    soft_constraints := softConstraints
    dish_name := dish }

/-!
### Phase inference and assistant-intent selection (lines 446-517)
-/

/-- The adaptation keywords (line 457). -/
def adaptationKws : List Str :=
  [strL "swap", strL "substitute", strL "instead", strL "without", strL "ran out",
   strL "out of", strL "can't have", strL "allergic", strL "replace"]

/-- The execution keywords (line 461). -/
def executionKws : List Str :=
  [strL "next step", strL "what's next", strL "temperature", strL "preheat", strL "bake",
   strL "simmer", strL "timer", strL "cook it", strL "how long", strL "step"]

/-- The commitment (choice-making) keywords (line 469). -/
def choiceKws : List Str :=
  [strL "i'll take", strL "i'll go with", strL "let's make", strL "let's do", strL "choose",
   strL "pick", strL "the first one", strL "the second one", strL "go with"]

/-- `determine_conversation_phase` (lines 446-484).  `conversationHistory`
is accepted and ignored exactly as in the source. -/
def determineConversationPhase (userMessage : Str)
    (conversationHistory : List (Str × Str)) (ctx : ConversationContext)
    (analysis : IntentAnalysis) (recipeDetailRequested : Bool) : ConversationPhase :=
  let _ := conversationHistory
  let text := lcStr userMessage
  if adaptationKws.any (fun k => strHas k text) then .adaptation
  else if executionKws.any (fun k => strHas k text) then .execution
  else if recipeDetailRequested || analysis.dish_name.isSome then .commitment
  else if choiceKws.any (fun k => strHas k text) then .commitment
  else if ¬ctx.last_recommended_recipes.isEmpty then .narrowing
  else if analysis.intent = strL "learning" ∨ analysis.intent = strL "browsing" then .discovery
  else if analysis.intent = strL "ingredient_based" ∨ analysis.intent = strL "constraint_based" then
    (if ¬ctx.ingredients.isEmpty ∨ ¬ctx.dietary_restrictions.isEmpty then .narrowing
     else .discovery)
  else .discovery

/-- `should_ask_clarifying_question` (lines 487-496). -/
def shouldAskClarifyingQuestion (analysis : IntentAnalysis) (ctx : ConversationContext) : Bool :=
  if analysis.intent = strL "learning" then false
  else if analysis.dish_name.isSome then false
  else if ¬analysis.optional_ingredients.isEmpty ∨ ¬ctx.ingredients.isEmpty then false
  else true

/-- `choose_assistant_intent` (lines 499-517).  The trailing
`return SUGGEST_OPTIONS` of the source is unreachable (all five phases are
matched above it); the narrowing arm returns SUGGEST_OPTIONS in both branches
of its conditional, exactly as in the source. -/
def chooseAssistantIntent (phase : ConversationPhase) (analysis : IntentAnalysis)
    (needsClarification : Bool) : AssistantIntent :=
  match phase with
  | .adaptation => .adapt_recipe
  | .execution =>
    if analysis.intent ≠ strL "learning" then .provide_guidance else .teach_concept
  | .commitment => .confirm_choice
  | .narrowing => if ¬needsClarification then .suggest_options else .suggest_options
  | .discovery =>
    if analysis.intent = strL "learning" then .teach_concept
    else if needsClarification then .ask_clarifying_question else .suggest_options

/-- `decide_strategy` (lines 543-554). -/
def decideStrategy (analysis : IntentAnalysis) : Strategy :=
  if analysis.intent = strL "specific_dish" then .exact_search
  else if analysis.intent = strL "ingredient_based" then .ingredient_reasoning
  else if analysis.intent = strL "constraint_based" then .loose_search
  else if analysis.intent = strL "learning" then .no_search
  else .loose_search

/-- `summarize_user_goal` (lines 520-540). -/
def summarizeUserGoal (userMessage : Str) (analysis : IntentAnalysis)
    (ctx : ConversationContext) : Str :=
  let _ := userMessage
  let parts : List Str :=
    (match analysis.dish_name with
     | some d => [strL "Cook " ++ d]
     | none =>
       if analysis.intent = strL "ingredient_based" ∧
           (¬analysis.optional_ingredients.isEmpty ∨ ¬ctx.ingredients.isEmpty) then
         [strL "Find recipes using " ++ List.intercalate (strL ", ")
           (if ¬analysis.optional_ingredients.isEmpty then analysis.optional_ingredients
            else ctx.ingredients)]
       else if analysis.intent = strL "constraint_based" then
         [strL "Find recipes matching their constraints"]
       else if analysis.intent = strL "learning" then
         [strL "Teach a cooking concept or technique"]
       else [strL "Suggest good meal ideas"]) ++
    (if ¬ctx.allergies.isEmpty then
      [strL "avoid " ++ List.intercalate (strL ", ") ctx.allergies] else []) ++
    (if ¬ctx.dietary_restrictions.isEmpty then
      [strL "dietary prefs: " ++ List.intercalate (strL ", ") ctx.dietary_restrictions]
     else []) ++
    (if ¬ctx.cuisine_preference.isEmpty then
      [strL "cuisine: " ++ ctx.cuisine_preference] else [])
  (List.intercalate (strL "; ") parts).take 240

/-!
### Recipe-detail request detection (`process_conversation`, lines 690-694)

The regex
`(?:i'?d like to make|tell me (?:more )?about|how (?:do i make|to make)|show me|details? (?:for|about)|make) ['\"]([^'\"]+)['\"]`
with `re.IGNORECASE`: an alternative, a space, an opening quote (either kind),
a non-empty quote-free capture, and a closing quote (either kind).
-/

/-- The expanded, ordered alternatives of the detail regex (optional pieces
expanded greedily, as the regex engine tries them). -/
def detailAlts : List Str :=
  [strL "i'd like to make", strL "id like to make",
   strL "tell me more about", strL "tell me about",
   strL "how do i make", strL "how to make",
   strL "show me",
   strL "details for", strL "details about", strL "detail for", strL "detail about",
   strL "make"]

/-- Is this character one of the quote characters `['\"]`? -/
def isQuoteCh (c : Char) : Bool := c == apos || c == '"'

/-- Try one alternative of the detail regex at the head of the (aligned)
original/lowercased suffixes; the capture is taken from the original text and
stripped, as `group(1).strip()` is in the source (line 699). -/
def detailTryAlt (alt : Str) (orig low : Str) : Option Str :=
  if strStarts alt low then
    match List.drop alt.length orig with
    | ' ' :: q :: tl =>
      if isQuoteCh q then
        let cap := tl.takeWhile (fun c => ¬isQuoteCh c)
        if ¬cap.isEmpty then
          match List.drop cap.length tl with
          | r :: _ => if isQuoteCh r then some (stripStr cap) else none
          | [] => none
        else none
      else none
    | _ => none
  else none

/-- All alternatives of the detail regex at one position. -/
def detailMatchAt (orig low : Str) : Option Str :=
  detailAlts.findSome? (fun alt => detailTryAlt alt orig low)

/-- `re.search` of the detail regex over aligned original/lowercased text. -/
def detailSearchGo : Str → Str → Option Str
  | [], _ => none
  | _ :: _, [] => none
  | o :: otl, l :: ltl =>
    match detailMatchAt (o :: otl) (l :: ltl) with
    | some t => some t
    | none => detailSearchGo otl ltl

/-- The `recipe_detail_match` of `process_conversation` (lines 690-694). -/
def detailSearch (userMessage : Str) : Option Str :=
  detailSearchGo userMessage (lcStr userMessage)

/-!
### Per-turn state selection (`process_conversation`, lines 768-812)

The pure portion of a normal (non-detail) turn: analysis, strategy,
clarification gate, phase, assistant intent, the `ConversationState`
initialisation, active-recipe recovery, the clarification lock, and the
intent-correction block, exactly in the source's order.
-/

/-- Lines 776-788 of `process_conversation`: the `ConversationState(...)`
initialisation, with `phase`, `assistant_intent` and `user_goal_summary`
computed as on lines 768-774. -/
def initialTurnState (userMessage : Str) (conversationHistory : List (Str × Str))
    (ctx : ConversationContext) : ConversationState :=
  let recipeDetailRequested := (detailSearch userMessage).isSome
  let analysis := analyzeIntentAndConstraints userMessage ctx
  let needsClarification := shouldAskClarifyingQuestion analysis ctx
  let phase := determineConversationPhase userMessage conversationHistory ctx analysis
    recipeDetailRequested
  { phase := phase
    assistant_intent := chooseAssistantIntent phase analysis needsClarification
    user_goal_summary := summarizeUserGoal userMessage analysis ctx
    allergies := ctx.allergies
    cuisine := if ¬ctx.cuisine_preference.isEmpty then some ctx.cuisine_preference else none
    meal_type := if ¬ctx.meal_type.isEmpty then some ctx.meal_type else none
    diet := ctx.dietary_restrictions.head?
    recipes_shown := ¬ctx.last_recommended_recipes.isEmpty
    recipe_expanded := false
    allow_recipe_identity_clarification := true }

/-- Lines 790-795: recover the active recipe if the phase is past commitment
and one is missing, and disallow identity clarification. -/
def recoverActiveRecipe (ctx : ConversationContext) (st : ConversationState) :
    ConversationState :=
  if (st.phase = .commitment ∨ st.phase = .execution ∨ st.phase = .adaptation) ∧
      st.active_recipe = none ∧ ¬ctx.last_recommended_recipes.isEmpty then
    { st with
        active_recipe := some
          { recipe_id := (ctx.last_recommended_recipes.getLast?).getD []
            recipe_name := strL "selected recipe" }
        allow_recipe_identity_clarification := false }
  else st

/-- Lines 797-799: enforce the clarification lock when committed, executing
or adapting. -/
def enforceClarificationLock (st : ConversationState) : ConversationState :=
  if st.phase = .commitment ∨ st.phase = .execution ∨ st.phase = .adaptation then
    { st with allow_recipe_identity_clarification := false }
  else st

/-- Lines 801-812: if clarification is disallowed but the chosen intent is
`ask_clarifying_question`, substitute the phase's non-clarifying intent. -/
def correctAssistantIntent (st : ConversationState) : ConversationState :=
  if st.allow_recipe_identity_clarification = false ∧
      st.assistant_intent = .ask_clarifying_question then
    { st with
        assistant_intent :=
          match st.phase with
          | .narrowing => .suggest_options
          | .commitment => .confirm_choice
          | .execution => .provide_guidance
          | .adaptation => .adapt_recipe
          | _ => .suggest_options }
  else st

/-- Lines 768-812 of `process_conversation`: the turn's `ConversationState`
after the intent-correction block. -/
def processTurnState (userMessage : Str) (conversationHistory : List (Str × Str))
    (ctx : ConversationContext) : ConversationState :=
  correctAssistantIntent (enforceClarificationLock
    (recoverActiveRecipe ctx (initialTurnState userMessage conversationHistory ctx)))

/-!
### Context extraction (`extract_context_from_response`, lines 312-376)
-/

/-- `common_ingredients` (lines 322-328). -/
def commonIngredients : List Str :=
  [strL "chicken", strL "beef", strL "pork", strL "fish", strL "salmon", strL "shrimp",
   strL "tofu", strL "eggs", strL "rice", strL "pasta", strL "noodles", strL "bread",
   strL "potato", strL "potatoes", strL "tomato", strL "tomatoes", strL "onion",
   strL "garlic", strL "carrot", strL "broccoli", strL "spinach", strL "cheese",
   strL "milk", strL "cream", strL "butter", strL "yogurt", strL "beans",
   strL "lentils", strL "chickpeas"]

/-- The keys of `allergy_keywords` (lines 334-338). -/
def allergyKeywords : List Str :=
  [strL "allergic to", strL "allergy", strL "intolerant", strL "can't eat",
   strL "don't eat", strL "avoid", strL "no ", strL "without"]

/-- `allergens` (line 339). -/
def allergens : List Str :=
  [strL "nuts", strL "peanuts", strL "dairy", strL "gluten", strL "shellfish",
   strL "eggs", strL "soy", strL "wheat", strL "fish"]

/-- `cuisines` (lines 349-350). -/
def cuisines : List Str :=
  [strL "italian", strL "mexican", strL "chinese", strL "japanese", strL "indian",
   strL "thai", strL "french", strL "greek", strL "korean", strL "vietnamese",
   strL "american", strL "mediterranean"]

/-- `meal_types` (lines 357-358), keyword/value pairs in dict order. -/
def mealTypes : List (Str × Str) :=
  [(strL "breakfast", strL "breakfast"), (strL "lunch", strL "lunch"),
   (strL "dinner", strL "dinner"), (strL "snack", strL "snack"),
   (strL "dessert", strL "dessert"), (strL "brunch", strL "breakfast")]

/-- The quick-time words (line 365). -/
def quickWords : List Str :=
  [strL "quick", strL "fast", strL "15 min", strL "20 min", strL "30 min", strL "hurry"]

/-- The long-time words (line 367). -/
def slowWords : List Str := [strL "slow", strL "hour", strL "hours", strL "time"]

/-- `diets` (line 371). -/
def diets : List Str :=
  [strL "vegetarian", strL "vegan", strL "keto", strL "low-carb", strL "gluten-free",
   strL "dairy-free", strL "healthy", strL "low-fat"]

/-- The `for item: if p item and item not in acc: acc.append(item)` pattern
shared by the ingredient, allergy and diet loops of
`extract_context_from_response`. -/
def foldAdd (p : Str → Bool) (items : List Str) (cur : List Str) : List Str :=
  items.foldl (fun acc i => if p i ∧ i ∉ acc then acc ++ [i] else acc) cur

/-- `extract_context_from_response` (lines 312-376).  The source computes
`combined_text = (user_message + " " + llm_response).lower()` but then tests
only `user_message.lower()` in every branch; `llmResponse` is therefore
carried but unused, exactly as in the source. -/
def extractContextFromResponse (llmResponse : Str) (userMessage : Str)
    (ctx : ConversationContext) : ConversationContext :=
  let _ := llmResponse
  let m := lcStr userMessage
  let ingredients := foldAdd (fun i => strHas i m) commonIngredients ctx.ingredients
  let allergies :=
    foldAdd (fun a => strHas a m && allergyKeywords.any (fun k => strHas k m))
      allergens ctx.allergies
  let cuisine :=
    match cuisines.find? (fun c => strHas c m) with
    | some c => c
    | none => ctx.cuisine_preference
  let mealType :=
    match mealTypes.find? (fun p => strHas p.1 m) with
    | some p => p.2
    | none => ctx.meal_type
  let cookingTime :=
    if quickWords.any (fun w => strHas w m) then strL "quick"
    else if slowWords.any (fun w => strHas w m) then strL "long"
    else ctx.cooking_time
  let dietary := foldAdd (fun d => strHas d m) diets ctx.dietary_restrictions
  { ctx with
      ingredients := ingredients
      allergies := allergies
      cuisine_preference := cuisine
      meal_type := mealType
      cooking_time := cookingTime
      dietary_restrictions := dietary }

/-!
### Context after a normal turn (`process_conversation`, lines 822-924)

`extract_context_from_response` runs on the turn's context (line 828), then
`has_enough_context` is recomputed (line 829), and `last_recommended_recipes`
is replaced by the search results' titles exactly when a search ran (lines
917-922) — and a search runs exactly when the strategy is EXACT_SEARCH or
LOOSE_SEARCH (lines 862-881: `recipes` is assigned only under that strategy
test; with those strategies `should_search` is already true).  The titles the
external search returns are an oracle argument `searchTitles`.
-/

/-- The context returned by a normal (non-detail) turn.  `llmClean` is the
contract-enforced LLM text passed to `extract_context_from_response`. -/
def contextAfterTurn (userMessage : Str) (llmClean : Str) (ctx : ConversationContext)
    (searchTitles : List Str) : ConversationContext :=
  let analysis := analyzeIntentAndConstraints userMessage ctx
  let strategy := decideStrategy analysis
  let ctx := extractContextFromResponse llmClean userMessage ctx
  let ctx :=
    { ctx with
        has_enough_context :=
          ¬ctx.ingredients.isEmpty ∨ ¬ctx.allergies.isEmpty ∨
          ¬ctx.cuisine_preference.isEmpty ∨ ¬ctx.dietary_restrictions.isEmpty }
  if strategy = .exact_search ∨ strategy = .loose_search then
    { ctx with last_recommended_recipes := searchTitles }
  else ctx

/-!
### Response contract enforcer (lines 586-622)
-/

/-- `re.sub` of a literal pattern with the empty replacement: remove every
(leftmost, non-overlapping) occurrence of `pat`.  Structural recursion on a
fuel bound: each step consumes at least one character, so fuel `s.length`
always suffices and the fuel-exhaustion arm is unreachable from
`removeAll`. -/
def removeAllGo (pat : Str) : Nat → Str → Str
  | _, [] => []
  | 0, s => s
  | fuel + 1, c :: tl =>
    if strStarts pat (c :: tl) ∧ ¬pat.isEmpty then
      removeAllGo pat fuel (List.drop (pat.length - 1) tl)
    else c :: removeAllGo pat fuel tl

/-- `re.sub` of a literal pattern with the empty replacement. -/
def removeAll (pat : Str) (s : Str) : Str := removeAllGo pat s.length s

/-- `re.sub(r'Looking for:.*?(?=\n|$)', '', s)` (line 591): each occurrence of
`Looking for:` is removed together with the rest of its line (the lazy `.*?`
with the `(?=\n|$)` lookahead stops at the first newline or at the end).
Fuel-bounded structural recursion as in `removeAllGo`. -/
def removeLookingGo : Nat → Str → Str
  | _, [] => []
  | 0, s => s
  | fuel + 1, c :: tl =>
    if strStarts (strL "Looking for:") (c :: tl) then
      removeLookingGo fuel ((List.drop 11 tl).dropWhile (fun x => !(x == '\n')))
    else c :: removeLookingGo fuel tl

/-- `re.sub(r'Looking for:.*?(?=\n|$)', '', s)` (line 591). -/
def removeLooking (s : Str) : Str := removeLookingGo s.length s

/-- `clean_response_for_display` (lines 586-593). -/
def cleanResponseForDisplay (response : Str) : Str :=
  stripStr (removeLooking (removeAll (strL "[SEARCH_RECIPES]") response))

/-- Truncate at the first occurrence of `[REASONING SNAPSHOT]`:
`re.sub(r"\[REASONING SNAPSHOT\][\s\S]*", "", s)` (line 605). -/
def removeSnapshotTail : Str → Str
  | [] => []
  | c :: tl =>
    if strStarts (strL "[REASONING SNAPSHOT]") (c :: tl) then []
    else c :: removeSnapshotTail tl

/-- `re.sub(r"\n{3,}", "\n\n", s)` (line 607): collapse runs of three or more
newlines to two.  Fuel-bounded structural recursion as in `removeAllGo`. -/
def collapseBlankGo : Nat → Str → Str
  | _, [] => []
  | 0, s => s
  | fuel + 1, c :: tl =>
    if c == '\n' then
      let run := (tl.takeWhile (fun x => x == '\n')).length + 1
      let rest := tl.dropWhile (fun x => x == '\n')
      (if 3 ≤ run then strL "\n\n" else List.replicate run '\n') ++ collapseBlankGo fuel rest
    else c :: collapseBlankGo fuel tl

/-- `re.sub(r"\n{3,}", "\n\n", s)` (line 607). -/
def collapseBlank (s : Str) : Str := collapseBlankGo s.length s

/-- Locate the marker `\[RESPONSE\]\s*:?` (case-insensitive) and return the
text after the match's end (`response[match.end():]`, lines 599-612). -/
def markerSplit : Str → Option Str
  | [] => none
  | c :: tl =>
    if strStartsCI (strL "[response]") (c :: tl) then
      let rest := List.drop 9 tl
      let rest := rest.dropWhile (fun x => isSpaceCh x)
      some (match rest with
            | ':' :: r => r
            | r => r)
    else markerSplit tl

/-- The fixed safe fallback message (lines 608 and 619). -/
def fallbackMsg : Str :=
  strL "I'm here and ready to help—what would you like to cook or clarify?"

/-- `strip_structured_tags` (lines 596-622). -/
def stripStructuredTags (response : Str) : Str :=
  match markerSplit response with
  | none =>
    let cleanedAll := cleanResponseForDisplay response
    let cleanedAll := stripStr (removeSnapshotTail cleanedAll)
    let cleanedAll := collapseBlank cleanedAll
    if cleanedAll.isEmpty then fallbackMsg else cleanedAll
  | some post =>
    let responseOnly := lstripStr post
    if (stripStr responseOnly).isEmpty then fallbackMsg
    else cleanResponseForDisplay responseOnly

/-!
### The LLM call layer (`llm.py`, `call_llm_async`, lines 121-206)

The transport is an oracle: `attempts` lists, per loop iteration, what the
HTTP layer does — a response with a status code, an optional integer
`Retry-After` header and a message content, a timeout, or a transport error.
`resp 200` with empty content covers both the missing-choices and the
empty-content branches, which raise `APIError` alike (lines 182-189).
-/

/-- One iteration's transport outcome. -/
inductive LLMAttempt where
  | resp (code : Nat) (retryAfter : Option Nat) (content : Str)
  | timeout
  | netErr
deriving DecidableEq, Repr

/-- The call's result: the returned content, or the typed error raised. -/
inductive LLMOutcome where
  | success (content : Str)
  | rateLimitError
  | apiError
deriving DecidableEq, Repr

/-- The retry loop of `call_llm_async` (lines 153-206) from iteration
`attempt` on.  Returns the outcome and the list of sleeps performed
(in seconds): `2 ** attempt` on timeout/transport error (lines 195, 201),
`Retry-After` with default `2 ** attempt` on HTTP 429 (lines 163-165).
A non-200, non-429 status and a malformed 200 raise `APIError` inside the
`try` block; only `httpx.TimeoutException` and `httpx.RequestError` are
caught, so those raises are never retried.  An exhausted loop raises
`last_error` or the generic `APIError` (lines 204-206). -/
def callLlmGo (maxRetries : Nat) : Nat → List LLMAttempt → LLMOutcome × List Nat
  | _, [] => (.apiError, [])
  | attempt, a :: rest =>
    match a with
    | .timeout =>
      if attempt < maxRetries - 1 then
        ((callLlmGo maxRetries (attempt + 1) rest).1,
         2 ^ attempt :: (callLlmGo maxRetries (attempt + 1) rest).2)
      else (.apiError, [])
    | .netErr =>
      if attempt < maxRetries - 1 then
        ((callLlmGo maxRetries (attempt + 1) rest).1,
         2 ^ attempt :: (callLlmGo maxRetries (attempt + 1) rest).2)
      else (.apiError, [])
    | .resp code ra content =>
      if code = 429 then
        if attempt < maxRetries - 1 then
          ((callLlmGo maxRetries (attempt + 1) rest).1,
           ra.getD (2 ^ attempt) :: (callLlmGo maxRetries (attempt + 1) rest).2)
        else (.rateLimitError, [])
      else if code ≠ 200 then (.apiError, [])
      else if content.isEmpty then (.apiError, [])
      else (.success content, [])

/-- `call_llm_async` with the configured attempt limit
(`LLM_MAX_RETRIES = 3`, config.py line 35). -/
def callLlmAsync (attempts : List LLMAttempt) (maxRetries : Nat := 3) :
    LLMOutcome × List Nat :=
  callLlmGo maxRetries 0 attempts

/-- Spec-side: the attempts the spec calls retryable (timeout, transport
error, rate limit). -/
def isTransient : LLMAttempt → Bool
  | .timeout => true
  | .netErr => true
  | .resp code _ _ => code == 429

/-- Spec-side: the backoff before the next attempt: `Retry-After`
(default `2 ** attempt`) on 429, `2 ** attempt` otherwise. -/
def attemptDelay (a : LLMAttempt) (i : Nat) : Nat :=
  match a with
  | .resp _ ra _ => ra.getD (2 ^ i)
  | _ => 2 ^ i

/-- Spec-side: the typed error surfaced when the final attempt fails — a
rate-limit error when the final attempt was a 429 response, a generic API
error when it was a timeout or transport error. -/
def finalFailure : LLMAttempt → LLMOutcome
  | .resp _ _ _ => .rateLimitError
  | _ => .apiError

/-- The per-attempt delays of a run starting at attempt index `i`. -/
def attemptDelays : List LLMAttempt → Nat → List Nat
  | [], _ => []
  | a :: rest, i => attemptDelay a i :: attemptDelays rest (i + 1)

/-!
### The search client's response cache (`spoonacular.py`, lines 82-181)

An entry is (key, cached payload, storage time in whole seconds); the cache
list carries dict insertion order.  The payload is abstracted to a `Nat`
identifier — the claims are about when the cache is read, written and
evicted, never about the payload's shape.  `(datetime.now() - timestamp).seconds`
is the timedelta's seconds-within-day component, i.e. `(now - t) % 86400`
for `now ≥ t` (`.seconds`, not `.total_seconds()`, line 104).
-/

/-- One cache entry of `SpoonacularAPI._cache`. -/
structure CacheEntry where
  key : Str
  val : Nat
  time : Nat
deriving DecidableEq, Repr

/-- `SpoonacularAPI._cache`, in dict insertion order. -/
abbrev Cache := List CacheEntry

/-- `SpoonacularAPI._get_cached` (lines 100-107): a hit within validity
returns the entry and leaves the cache; an expired entry is deleted. -/
def getCached (cache : Cache) (key : Str) (now : Nat) : Option Nat × Cache :=
  match cache.find? (fun e => e.key == key) with
  | some e =>
    if (now - e.time) % 86400 < 300 then (some e.val, cache)
    else (none, cache.eraseP (fun e => e.key == key))
  | none => (none, cache)

/-- First entry with the minimal timestamp, as
`min(self._cache.keys(), key=lambda k: self._cache[k][1])` resolves over a
dict in insertion order (line 114). -/
def minTimeEntry : Cache → Option CacheEntry
  | [] => none
  | e :: tl =>
    match minTimeEntry tl with
    | none => some e
    | some m => if e.time ≤ m.time then some e else some m

/-- `SpoonacularAPI._set_cache` (lines 109-115): store (replacing in place if
the key exists, appending otherwise), then evict the oldest-by-insertion-time
entry when more than 100 entries remain. -/
def setCache (cache : Cache) (key : Str) (val : Nat) (now : Nat) : Cache :=
  let stored :=
    if (cache.find? (fun e => e.key == key)).isSome then
      cache.map (fun e => if e.key == key then { e with val := val, time := now } else e)
    else cache ++ [{ key := key, val := val, time := now }]
  if 100 < stored.length then
    match minTimeEntry stored with
    | some m => stored.eraseP (fun e => e.key == m.key)
    | none => stored
  else stored

/-- `SpoonacularAPI._make_request` with `use_cache=True` (lines 123-181),
the retry loop collapsed into the oracle `net` (`some payload` = a
successful response, `none` = the request ultimately failed: 402, another
error status, or exhausted retries — all of which return `None` without
caching).  The third component records whether the network layer was
invoked at all. -/
def makeRequest (cache : Cache) (key : Str) (now : Nat) (net : Option Nat) :
    Option Nat × Cache × Bool :=
  match getCached cache key now with
  | (some v, cache') => (some v, cache', false)
  | (none, cache') =>
    match net with
    | some v => (some v, setCache cache' key v now, true)
    | none => (none, cache', true)

/-!
### The recipe-detail fetch path (`process_conversation`, lines 688-766)

`candidates`/`scores` are the titles the search returns and the
`rapidfuzz.fuzz.ratio` similarity of each against the requested title (an
external scoring function, passed as an oracle).  `fullRecipe` is what
`get_full_recipe` returns, with its `recipe.ingredients` list.

The loop of lines 705-711 keeps the running maximum under a strict `>`
starting from 0, so `best_match and best_score > 60` holds exactly when the
maximal score exceeds 60.  When it does and the fetched record has
ingredients, line 727 executes `state.active_recipe = ActiveRecipe(...)` —
but `state` is a local variable of `process_conversation` whose first
assignment is on line 777, after this block; Python therefore raises
`UnboundLocalError` at line 727.  The `/chat` endpoint (main.py line 175)
catches it as a generic `Exception` and re-raises `HTTPException(500)`.
-/

/-- How the recipe-detail block ends. -/
inductive DetailOutcome where
  | notDetail
  | reply (text : Str)
  | unboundLocalError
deriving DecidableEq, Repr

/-- The friendly retry message of line 721. -/
def detailRetryMsg : Str :=
  strL "I'm having trouble getting the full recipe details right now. Please try again!"

/-- The recipe-detail block of `process_conversation` (lines 688-766).
`candidateScores` are the fuzzy-match scores of the search candidates and
`fullIngredients` the ingredient lines of the fetched full record
(`none` = the fetch returned nothing). -/
def detailPath (userMessage : Str) (candidateScores : List Nat)
    (fullIngredients : Option (List Str)) : DetailOutcome :=
  match detailSearch userMessage with
  | none => .notDetail
  | some _ =>
    if 60 < candidateScores.foldl max 0 then
      match fullIngredients with
      | none => .reply detailRetryMsg
      | some ings =>
        if ings.isEmpty then .reply detailRetryMsg
        else .unboundLocalError
    else .notDetail

/-!
### Prompt assembly (`build_conversation_prompt`, lines 282-309)
-/

/-- One chat message, Python's `{"role": ..., "content": ...}` dict. -/
structure ChatMsg where
  role : Str
  content : Str
deriving DecidableEq, Repr

/-- The fixed system instructions (`SYSTEM_PROMPT`, lines 130-279).  The
literal block is ~150 lines of prose whose text no claim depends on; it is
transcribed here by its opening sentence, standing for the whole constant. -/
def SYSTEM_PROMPT : Str :=
  strL "You are FEAST, a thoughtful and friendly cooking companion. You genuinely enjoy helping people discover what to cook."

/-- `build_conversation_prompt` (lines 282-309): system prompt, the optional
reasoning-note system message, the context summary appended to
`messages[0]["content"]` when `context.ingredients or context.allergies or
context.cuisine_preference` is truthy, the last 10 history messages
verbatim, and the user message last. -/
def buildConversationPrompt (userMessage : Str) (conversationHistory : List ChatMsg)
    (ctx : ConversationContext) (reasoningNote : Str) : List ChatMsg :=
  let messages := [ChatMsg.mk (strL "system") SYSTEM_PROMPT]
  let messages :=
    if ¬reasoningNote.isEmpty then messages ++ [ChatMsg.mk (strL "system") reasoningNote]
    else messages
  let messages :=
    if ¬ctx.ingredients.isEmpty ∨ ¬ctx.allergies.isEmpty ∨
        ¬ctx.cuisine_preference.isEmpty then
      match messages with
      | m0 :: rest =>
        { m0 with
            content := m0.content ++ strL "\n\n[CONVERSATION CONTEXT]\n" ++ toSummary ctx } ::
          rest
      | [] => []
    else messages
  messages ++
    conversationHistory.drop (conversationHistory.length - 10) ++
    [ChatMsg.mk (strL "user") userMessage]

/-- Spec-side: the context-summary suffix the prompt's first system message
carries when the append condition holds. -/
def promptContextSuffix (ctx : ConversationContext) : Str :=
  if ¬ctx.ingredients.isEmpty ∨ ¬ctx.allergies.isEmpty ∨
      ¬ctx.cuisine_preference.isEmpty then
    strL "\n\n[CONVERSATION CONTEXT]\n" ++ toSummary ctx
  else []

/-- Spec-side: the optional reasoning-snapshot system message. -/
def promptNoteMsgs (reasoningNote : Str) : List ChatMsg :=
  if ¬reasoningNote.isEmpty then [ChatMsg.mk (strL "system") reasoningNote] else []

/-!
### Spec-side definitions

These transcribe the spec's words (not the source), for comparison against
the embedded code.
-/

/-- Spec-side: a well-formed tagged LLM output, as the response contract of
the system prompt (lines 274-279) prescribes it: the `[ASSISTANT_INTENT]`
line, the `[USER_GOAL_SUMMARY]` line, the `[RESPONSE]:` marker, then the
user-facing body. -/
def buildTagged (intent goal body : Str) : Str :=
  strL "[ASSISTANT_INTENT]: " ++ (intent ++ (strL "\n[USER_GOAL_SUMMARY]: " ++
    (goal ++ (strL "\n[RESPONSE]:\n" ++ body))))

/-- The spec's §4.2 phase-gating table: the legal assistant intents of each
phase, as the spec states them.  Spec-side definition. -/
def specLegalIntents : ConversationPhase → List AssistantIntent
  | .discovery => [.ask_clarifying_question, .suggest_options]
  | .narrowing => [.suggest_options, .confirm_choice]
  | .commitment => [.confirm_choice]
  | .execution => [.provide_guidance, .teach_concept]
  | .adaptation => [.adapt_recipe, .provide_guidance]

/-!
## Theorems

Helper lemmas first, then one theorem (with counterexample/witness where
required) per claim.
-/

theorem chooseAssistantIntent_ask (ph : ConversationPhase) (a : IntentAnalysis) (n : Bool)
    (h : chooseAssistantIntent ph a n = .ask_clarifying_question) :
    ph = .discovery ∧ n = true ∧ a.intent ≠ strL "learning" := by
  cases ph <;> simp only [chooseAssistantIntent] at h <;>
    first
      | (split_ifs at h <;> simp_all)
      | simp_all

theorem chooseAssistantIntent_legal (ph : ConversationPhase) (a : IntentAnalysis) (n : Bool) :
    chooseAssistantIntent ph a n ∈ specLegalIntents ph ∨
      (ph = .discovery ∧ a.intent = strL "learning" ∧
        chooseAssistantIntent ph a n = .teach_concept) := by
  cases ph <;> simp only [chooseAssistantIntent, specLegalIntents] <;>
    first
      | (split_ifs <;> simp_all)
      | simp_all

theorem recoverActiveRecipe_phase (c : ConversationContext) (st : ConversationState) :
    (recoverActiveRecipe c st).phase = st.phase := by
  unfold recoverActiveRecipe; split_ifs <;> rfl

theorem recoverActiveRecipe_intent (c : ConversationContext) (st : ConversationState) :
    (recoverActiveRecipe c st).assistant_intent = st.assistant_intent := by
  unfold recoverActiveRecipe; split_ifs <;> rfl

theorem enforceClarificationLock_phase (st : ConversationState) :
    (enforceClarificationLock st).phase = st.phase := by
  unfold enforceClarificationLock; split_ifs <;> rfl

theorem enforceClarificationLock_intent (st : ConversationState) :
    (enforceClarificationLock st).assistant_intent = st.assistant_intent := by
  unfold enforceClarificationLock; split_ifs <;> rfl

theorem correctAssistantIntent_phase (st : ConversationState) :
    (correctAssistantIntent st).phase = st.phase := by
  unfold correctAssistantIntent; split_ifs <;> rfl

theorem correctAssistantIntent_allow (st : ConversationState) :
    (correctAssistantIntent st).allow_recipe_identity_clarification =
      st.allow_recipe_identity_clarification := by
  unfold correctAssistantIntent; split_ifs <;> rfl

theorem lock_allow_iff (c : ConversationContext) (st : ConversationState)
    (hst : st.allow_recipe_identity_clarification = true) :
    ((enforceClarificationLock (recoverActiveRecipe c st)).allow_recipe_identity_clarification
        = false) ↔
      (st.phase = .commitment ∨ st.phase = .execution ∨ st.phase = .adaptation) := by
  unfold enforceClarificationLock recoverActiveRecipe
  split_ifs <;> simp_all

theorem correctAssistantIntent_of_ne (st : ConversationState)
    (h : st.assistant_intent ≠ .ask_clarifying_question) :
    (correctAssistantIntent st).assistant_intent = st.assistant_intent := by
  unfold correctAssistantIntent
  split_ifs with hc
  · exact absurd hc.2 h
  · rfl

theorem processTurnState_phase (m : Str) (h : List (Str × Str)) (c : ConversationContext) :
    (processTurnState m h c).phase =
      determineConversationPhase m h c (analyzeIntentAndConstraints m c)
        ((detailSearch m).isSome) := by
  unfold processTurnState
  rw [correctAssistantIntent_phase, enforceClarificationLock_phase, recoverActiveRecipe_phase]
  rfl

theorem processTurnState_allow (m : Str) (h : List (Str × Str)) (c : ConversationContext) :
    ((processTurnState m h c).allow_recipe_identity_clarification = false) ↔
      ((processTurnState m h c).phase = .commitment ∨
       (processTurnState m h c).phase = .execution ∨
       (processTurnState m h c).phase = .adaptation) := by
  unfold processTurnState
  rw [correctAssistantIntent_allow, correctAssistantIntent_phase,
    enforceClarificationLock_phase, recoverActiveRecipe_phase]
  rw [lock_allow_iff c _ rfl]

theorem processTurnState_intent (m : Str) (h : List (Str × Str)) (c : ConversationContext) :
    (processTurnState m h c).assistant_intent =
      chooseAssistantIntent
        (determineConversationPhase m h c (analyzeIntentAndConstraints m c)
          ((detailSearch m).isSome))
        (analyzeIntentAndConstraints m c)
        (shouldAskClarifyingQuestion (analyzeIntentAndConstraints m c) c) := by
  unfold processTurnState
  set st0 := initialTurnState m h c with hst0
  set st2 := enforceClarificationLock (recoverActiveRecipe c st0) with hst2
  have hint : st2.assistant_intent = st0.assistant_intent := by
    rw [hst2, enforceClarificationLock_intent, recoverActiveRecipe_intent]
  have hchoose : st0.assistant_intent =
      chooseAssistantIntent st0.phase (analyzeIntentAndConstraints m c)
        (shouldAskClarifyingQuestion (analyzeIntentAndConstraints m c) c) := rfl
  by_cases hask : st2.assistant_intent = .ask_clarifying_question
  · have hask' : chooseAssistantIntent st0.phase (analyzeIntentAndConstraints m c)
        (shouldAskClarifyingQuestion (analyzeIntentAndConstraints m c) c) =
          .ask_clarifying_question := by
      rw [← hchoose, ← hint]; exact hask
    have hdisc := chooseAssistantIntent_ask _ _ _ hask'
    have hallow : ¬(st2.allow_recipe_identity_clarification = false) := by
      rw [hst2, lock_allow_iff c st0 rfl, hdisc.1]
      simp
    unfold correctAssistantIntent
    rw [if_neg (by simp [hallow])]
    rw [hint, hchoose]
    rfl
  · rw [correctAssistantIntent_of_ne _ hask, hint, hchoose]
    rfl

/-- C1 (amended): for every turn of the normal flow, the assistant intent
chosen by the engine is in the spec's legal set of the inferred phase, with
one exception the counterexample forces: in DISCOVERY with learning intent
the engine chooses `teach_concept`, which the spec's DISCOVERY set omits.
`ask_clarifying_question` is chosen only when `needs_clarification` is true
and the identity-clarification lock is off. -/
theorem c1_phase_gating (m : Str) (hist : List (Str × Str)) (c : ConversationContext) :
    ((processTurnState m hist c).assistant_intent ∈
        specLegalIntents (processTurnState m hist c).phase ∨
      ((processTurnState m hist c).phase = .discovery ∧
        (analyzeIntentAndConstraints m c).intent = strL "learning" ∧
        (processTurnState m hist c).assistant_intent = .teach_concept)) ∧
    ((processTurnState m hist c).assistant_intent = .ask_clarifying_question →
      shouldAskClarifyingQuestion (analyzeIntentAndConstraints m c) c = true ∧
      (processTurnState m hist c).allow_recipe_identity_clarification = true) := by
  constructor
  · rw [processTurnState_intent, processTurnState_phase]
    exact chooseAssistantIntent_legal _ _ _
  · intro hask
    rw [processTurnState_intent] at hask
    have hd := chooseAssistantIntent_ask _ _ _ hask
    refine ⟨hd.2.1, ?_⟩
    have hph := processTurnState_phase m hist c
    have hal := processTurnState_allow m hist c
    rcases Bool.eq_false_or_eq_true
        ((processTurnState m hist c).allow_recipe_identity_clarification) with ht | hf
    · exact ht
    · exfalso
      have h2 := hal.mp hf
      rw [hph, hd.1] at h2
      simp at h2

set_option maxRecDepth 8000 in
/-- C1 (counterexample): on the turn "what is blanching" with an empty
context the inferred phase is DISCOVERY and the chosen assistant intent is
`teach_concept`, which is not in the claim's legal set
{ask_clarifying_question, suggest_options} for DISCOVERY. -/
theorem c1_counterexample :
    (processTurnState (strL "what is blanching") [] {}).phase = ConversationPhase.discovery ∧
    (processTurnState (strL "what is blanching") [] {}).assistant_intent =
      AssistantIntent.teach_concept ∧
    AssistantIntent.teach_concept ∉ specLegalIntents ConversationPhase.discovery := by
  decide

/-- C2 (amended): the identity-clarification lock is recomputed from scratch
every turn: it is off (true) exactly when the turn's inferred phase is
DISCOVERY or NARROWING, and on any turn on which it is on (false) —
equivalently, whose phase is COMMITMENT, EXECUTION or ADAPTATION —
`ask_clarifying_question` is never chosen.  It is not a persistent property
of a lineage: see the counterexample. -/
theorem c2_lock_per_turn (m : Str) (hist : List (Str × Str)) (c : ConversationContext) :
    (((processTurnState m hist c).phase = .commitment ∨
      (processTurnState m hist c).phase = .execution ∨
      (processTurnState m hist c).phase = .adaptation) ↔
        (processTurnState m hist c).allow_recipe_identity_clarification = false) ∧
    ((processTurnState m hist c).allow_recipe_identity_clarification = false →
      (processTurnState m hist c).assistant_intent ≠ .ask_clarifying_question) := by
  refine ⟨(processTurnState_allow m hist c).symm, ?_⟩
  intro hf hask
  rw [processTurnState_intent] at hask
  have hd := chooseAssistantIntent_ask _ _ _ hask
  have h2 := (processTurnState_allow m hist c).mp hf
  rw [processTurnState_phase m hist c, hd.1] at h2
  simp at h2

set_option maxRecDepth 8000 in
/-- C2 (counterexample): a three-turn lineage — "make pasta" (search returns
"pasta carbonara"), then "bake" (EXECUTION: the active recipe is recovered
and the lock engages), then "hmm" (which names no dish) — on whose third
turn `allow_recipe_identity_clarification` is true again, although the
lineage's phase had advanced past COMMITMENT with an active recipe and the
user never named a different dish. -/
theorem c2_counterexample :
    (processTurnState (strL "bake") []
        (contextAfterTurn (strL "make pasta") (strL "") {} [strL "pasta carbonara"])).phase =
      ConversationPhase.execution ∧
    ((processTurnState (strL "bake") []
        (contextAfterTurn (strL "make pasta") (strL "") {}
          [strL "pasta carbonara"])).active_recipe).isSome = true ∧
    (processTurnState (strL "bake") []
        (contextAfterTurn (strL "make pasta") (strL "") {}
          [strL "pasta carbonara"])).allow_recipe_identity_clarification = false ∧
    (analyzeIntentAndConstraints (strL "hmm")
        (contextAfterTurn (strL "bake") (strL "")
          (contextAfterTurn (strL "make pasta") (strL "") {} [strL "pasta carbonara"])
          [strL "baked ziti"])).dish_name = none ∧
    (processTurnState (strL "hmm") []
        (contextAfterTurn (strL "bake") (strL "")
          (contextAfterTurn (strL "make pasta") (strL "") {} [strL "pasta carbonara"])
          [strL "baked ziti"])).allow_recipe_identity_clarification = true := by
  decide

set_option maxRecDepth 8000 in
/-- C3 (amended): for the input "I'm allergic to gluten, something chocolatey"
against a context with empty allergies, the hard-constraint list is exactly
["allergy/avoid"] (so it includes "allergy/avoid"), and the phase inferred
for the turn is ADAPTATION — the adaptation keyword "allergic" matches first
in the phase-priority order — and in particular not EXECUTION. -/
theorem c3_allergy_turn :
    (analyzeIntentAndConstraints
        (strL "I'm allergic to gluten, something chocolatey") {}).hard_constraints =
      [strL "allergy/avoid"] ∧
    determineConversationPhase (strL "I'm allergic to gluten, something chocolatey") [] {}
        (analyzeIntentAndConstraints
          (strL "I'm allergic to gluten, something chocolatey") {}) false =
      ConversationPhase.adaptation ∧
    determineConversationPhase (strL "I'm allergic to gluten, something chocolatey") [] {}
        (analyzeIntentAndConstraints
          (strL "I'm allergic to gluten, something chocolatey") {}) false ≠
      ConversationPhase.execution := by
  decide

set_option maxRecDepth 8000 in
/-- C3 (counterexample): the claim asserts the phase inferred for this turn
is not ADAPTATION; on the code it is ADAPTATION ("allergic" is an adaptation
keyword, checked before everything else). -/
theorem c3_counterexample :
    determineConversationPhase (strL "I'm allergic to gluten, something chocolatey") [] {}
        (analyzeIntentAndConstraints
          (strL "I'm allergic to gluten, something chocolatey") {}) false =
      ConversationPhase.adaptation := by
  decide

set_option maxRecDepth 8000 in
/-- C4 (code bug): on the quoted detail request `tell me about "pasta
carbonara"`, with a search candidate whose fuzzy score is 95 (> 60) and a
successful full-record fetch with non-empty ingredients, the success branch
of the recipe-detail block does not build the presentation prompt: it
executes `state.active_recipe = ActiveRecipe(...)` (conversation.py line
727) with the local `state` still unassigned (first assignment is line 777),
so the turn raises `UnboundLocalError` — which `/chat` (main.py line 175)
surfaces as an HTTP 500 — contradicting the claim's "in no case does the
user-visible outcome of the turn become a raised exception".  The
below-threshold and failed-fetch branches behave as modelled: fall-through
and the friendly retry message respectively. -/
theorem c4_detail_path_crash :
    detailPath (strL "tell me about \"pasta carbonara\"") [95]
        (some [strL "8 ounces spaghetti"]) = DetailOutcome.unboundLocalError ∧
    detailPath (strL "tell me about \"pasta carbonara\"") [95] none =
      DetailOutcome.reply detailRetryMsg ∧
    detailPath (strL "tell me about \"pasta carbonara\"") [40]
        (some [strL "8 ounces spaghetti"]) = DetailOutcome.notDetail := by
  decide

theorem callLlmGo_allFail (atts : List LLMAttempt) (i N : Nat)
    (hall : ∀ a ∈ atts, isTransient a = true) (hlen : i + atts.length = N)
    (hne : atts ≠ []) :
    callLlmGo N i atts = (finalFailure (atts.getLast hne), attemptDelays atts.dropLast i) := by
  induction atts generalizing i with
  | nil => exact absurd rfl hne
  | cons a rest ih =>
    have ha := hall a (List.mem_cons_self a rest)
    cases rest with
    | nil =>
      have hi : ¬(i < N - 1) := by
        simp only [List.length_cons, List.length_nil] at hlen
        omega
      cases a with
      | timeout => simp [callLlmGo, hi, finalFailure, attemptDelays]
      | netErr => simp [callLlmGo, hi, finalFailure, attemptDelays]
      | resp code ra s =>
        have hc : code = 429 := by simpa [isTransient] using ha
        subst hc
        simp [callLlmGo, hi, finalFailure, attemptDelays]
    | cons b rest2 =>
      have hi : i < N - 1 := by
        simp only [List.length_cons] at hlen
        omega
      have hrec := ih (fun x hx => hall x (List.mem_cons_of_mem a hx)) (i := i + 1)
        (by simp only [List.length_cons] at hlen ⊢; omega) (by simp)
      have hlast : (a :: b :: rest2).getLast (by simp) = (b :: rest2).getLast (by simp) := by
        simp [List.getLast_cons]
      have hdrop : (a :: b :: rest2).dropLast = a :: (b :: rest2).dropLast := by
        simp
      cases a with
      | timeout =>
        have hstep : callLlmGo N i (LLMAttempt.timeout :: b :: rest2) =
            ((callLlmGo N (i + 1) (b :: rest2)).1,
             2 ^ i :: (callLlmGo N (i + 1) (b :: rest2)).2) := by
          conv_lhs => rw [callLlmGo]
          simp [hi]
        rw [hstep, hrec, hlast, hdrop]
        simp [attemptDelays, attemptDelay]
      | netErr =>
        have hstep : callLlmGo N i (LLMAttempt.netErr :: b :: rest2) =
            ((callLlmGo N (i + 1) (b :: rest2)).1,
             2 ^ i :: (callLlmGo N (i + 1) (b :: rest2)).2) := by
          conv_lhs => rw [callLlmGo]
          simp [hi]
        rw [hstep, hrec, hlast, hdrop]
        simp [attemptDelays, attemptDelay]
      | resp code ra s =>
        have hc : code = 429 := by simpa [isTransient] using ha
        subst hc
        have hstep : callLlmGo N i (LLMAttempt.resp 429 ra s :: b :: rest2) =
            ((callLlmGo N (i + 1) (b :: rest2)).1,
             ra.getD (2 ^ i) :: (callLlmGo N (i + 1) (b :: rest2)).2) := by
          conv_lhs => rw [callLlmGo]
          simp [hi]
        rw [hstep, hrec, hlast, hdrop]
        simp [attemptDelays, attemptDelay]

/-- C7 (amended): for a run whose attempts all fail with retryable outcomes
(timeout, transport error, HTTP 429) and which is as long as the configured
limit, every non-final attempt is retried after the spec's delay — the
server's Retry-After for a 429 when present, else `2 ** attempt` exponential
backoff — and the final attempt's failure surfaces the typed error:
RateLimitError for 429, APIError for timeouts and transport errors.  A 5xx
(or any other non-200, non-429) status is NOT retried: it raises APIError at
once (see the counterexample), which is the one correction to the claim. -/
theorem c7_retry_policy (atts : List LLMAttempt) (N : Nat)
    (hall : ∀ a ∈ atts, isTransient a = true) (hlen : atts.length = N) (hne : atts ≠ []) :
    callLlmAsync atts N =
      (finalFailure (atts.getLast hne), attemptDelays atts.dropLast 0) :=
  callLlmGo_allFail atts 0 N hall (by omega) hne

/-- C7 (witness): three attempts — timeout, transport error, then a 429
without Retry-After — surface RateLimitError after backoffs of 1 and 2
seconds. -/
theorem c7_witness :
    callLlmAsync [LLMAttempt.timeout, LLMAttempt.netErr, LLMAttempt.resp 429 none []] 3 =
      (LLMOutcome.rateLimitError, [1, 2]) := by
  have h := c7_retry_policy
    [LLMAttempt.timeout, LLMAttempt.netErr, LLMAttempt.resp 429 none []] 3
    (by decide) rfl (by decide)
  exact h.trans (by decide)

/-- C7 (counterexample): a first-attempt HTTP 500 is not retried — although
the second attempt would succeed with content "ok", the call surfaces a
generic APIError immediately, with no backoff sleep — contradicting the
claim that any 5xx status is retried up to the attempt limit. -/
theorem c7_counterexample :
    callLlmAsync [LLMAttempt.resp 500 none [], LLMAttempt.resp 200 none (strL "ok"),
      LLMAttempt.resp 200 none (strL "ok")] 3 = (LLMOutcome.apiError, []) ∧
    callLlmAsync [LLMAttempt.resp 500 none [], LLMAttempt.resp 200 none (strL "ok"),
      LLMAttempt.resp 200 none (strL "ok")] 3 ≠ (LLMOutcome.success (strL "ok"), [1]) := by
  decide

/-- C8 (code bug): the cache entry stored at t = 0 s is served within the
300 s TTL without a network call, and a repeat at t = 400 s does invoke the
network — but the same request at t = 86410 s (24 h 10 s later, far past the
TTL) is again served from the cache with no network call, because
`_get_cached` compares `timedelta.seconds` (the seconds-within-day
component, here 10) rather than `total_seconds()` against the TTL
(spoonacular.py line 104). -/
theorem c8_ttl_wraparound :
    (makeRequest [] (strL "search:pasta") 0 (some 7) =
      (some 7, [⟨strL "search:pasta", 7, 0⟩], true)) ∧
    (makeRequest [⟨strL "search:pasta", 7, 0⟩] (strL "search:pasta") 100 (some 9) =
      (some 7, [⟨strL "search:pasta", 7, 0⟩], false)) ∧
    ((makeRequest [⟨strL "search:pasta", 7, 0⟩] (strL "search:pasta") 400 (some 9)).2.2 =
      true) ∧
    (makeRequest [⟨strL "search:pasta", 7, 0⟩] (strL "search:pasta") 86410 (some 9) =
      (some 7, [⟨strL "search:pasta", 7, 0⟩], false)) := by
  decide

/-- C9 (amended): `build_conversation_prompt` returns exactly the ordered
list — the fixed system instructions (with the context summary appended to
that first system message precisely when ingredients, allergies or a cuisine
preference are known — not for every known preference, see the
counterexample), then the optional reasoning-snapshot system message, then
the last 10 history turns verbatim, then the current user message. -/
theorem c9_prompt_shape (u : Str) (h : List ChatMsg) (c : ConversationContext) (note : Str) :
    buildConversationPrompt u h c note =
      ChatMsg.mk (strL "system") (SYSTEM_PROMPT ++ promptContextSuffix c) ::
        (promptNoteMsgs note ++ h.drop (h.length - 10) ++ [ChatMsg.mk (strL "user") u]) := by
  unfold buildConversationPrompt promptContextSuffix promptNoteMsgs
  by_cases hn : note = [] <;>
    by_cases hc : (¬c.ingredients = [] ∨ ¬c.allergies = [] ∨ ¬c.cuisine_preference = []) <;>
    simp [hn, hc]

set_option maxRecDepth 4000 in
/-- C9 (counterexample): a context whose only known preference is the
dietary restriction "vegan" has a non-default summary ("Diet: vegan"), yet
the built prompt carries no context summary — the append condition tests
only ingredients, allergies and cuisine preference — contradicting the
claim's "appended ... if any preference is known". -/
theorem c9_counterexample :
    toSummary { dietary_restrictions := [strL "vegan"] } ≠
      strL "No preferences specified yet" ∧
    buildConversationPrompt (strL "hi") [] { dietary_restrictions := [strL "vegan"] } [] =
      [ChatMsg.mk (strL "system") SYSTEM_PROMPT, ChatMsg.mk (strL "user") (strL "hi")] := by
  decide

theorem foldAdd_cons (p : Str → Bool) (i : Str) (items : List Str) (cur : List Str) :
    foldAdd p (i :: items) cur =
      foldAdd p items (if p i ∧ i ∉ cur then cur ++ [i] else cur) := by
  simp [foldAdd, List.foldl_cons]

theorem foldAdd_mem_of_mem (p : Str → Bool) (items : List Str) :
    ∀ (cur : List Str) (x : Str), x ∈ cur → x ∈ foldAdd p items cur := by
  induction items with
  | nil => intro cur x hx; simpa [foldAdd] using hx
  | cons i is ih =>
    intro cur x hx
    rw [foldAdd_cons]
    apply ih
    split_ifs <;> simp [hx]

theorem foldAdd_mem_of_item (p : Str → Bool) (items : List Str) :
    ∀ (cur : List Str) (x : Str), x ∈ items → p x = true → x ∈ foldAdd p items cur := by
  induction items with
  | nil => intro cur x hx; simp at hx
  | cons i is ih =>
    intro cur x hx hp
    rw [foldAdd_cons]
    rcases List.mem_cons.mp hx with hxi | hxis
    · subst hxi
      by_cases hin : x ∈ cur
      · apply foldAdd_mem_of_mem
        split_ifs <;> simp [hin]
      · apply foldAdd_mem_of_mem
        rw [if_pos ⟨hp, hin⟩]
        simp
    · exact ih _ x hxis hp

theorem foldAdd_eq_self (p : Str → Bool) (items : List Str) :
    ∀ (cur : List Str), (∀ x ∈ items, p x = true → x ∈ cur) → foldAdd p items cur = cur := by
  induction items with
  | nil => intro cur _; simp [foldAdd]
  | cons i is ih =>
    intro cur hall
    rw [foldAdd_cons]
    have hstep : (if p i ∧ i ∉ cur then cur ++ [i] else cur) = cur := by
      split_ifs with hcond
      · exact absurd (hall i (by simp) hcond.1) hcond.2
      · rfl
    rw [hstep]
    exact ih cur (fun x hx hp => hall x (List.mem_cons_of_mem i hx) hp)

theorem foldAdd_idem (p : Str → Bool) (items : List Str) (cur : List Str) :
    foldAdd p items (foldAdd p items cur) = foldAdd p items cur :=
  foldAdd_eq_self p items _ (fun x hx hp => foldAdd_mem_of_item p items cur x hx hp)

theorem foldAdd_nodup (p : Str → Bool) (items : List Str) :
    ∀ (cur : List Str), cur.Nodup → (foldAdd p items cur).Nodup := by
  induction items with
  | nil => intro cur h; simpa [foldAdd] using h
  | cons i is ih =>
    intro cur h
    rw [foldAdd_cons]
    apply ih
    split_ifs with hcond
    · simp [List.nodup_append, h, hcond.2]
    · exact h

/-- C10: `extract_context_from_response` is idempotent — applying it a
second time with the same user message, LLM response and context changes
nothing: the keyword loops add a list entry only when it is absent, the
scalar fields are overwritten with the same keyword-determined values, and
the list fields stay duplicate-free when they start duplicate-free. -/
theorem c10_extract_idempotent (resp msg : Str) (ctx : ConversationContext) :
    extractContextFromResponse resp msg (extractContextFromResponse resp msg ctx) =
      extractContextFromResponse resp msg ctx ∧
    (ctx.ingredients.Nodup →
      (extractContextFromResponse resp msg ctx).ingredients.Nodup) ∧
    (ctx.allergies.Nodup →
      (extractContextFromResponse resp msg ctx).allergies.Nodup) ∧
    (ctx.dietary_restrictions.Nodup →
      (extractContextFromResponse resp msg ctx).dietary_restrictions.Nodup) := by
  refine ⟨?_, fun h => foldAdd_nodup _ _ _ h, fun h => foldAdd_nodup _ _ _ h,
    fun h => foldAdd_nodup _ _ _ h⟩
  cases ctx with
  | mk i a cu d mt ct sk se fp dk he lr =>
    unfold extractContextFromResponse
    rcases hcui : cuisines.find? (fun c => strHas c (lcStr msg)) with _ | c <;>
      rcases hmeal : mealTypes.find? (fun p => strHas p.1 (lcStr msg)) with _ | mp <;>
      by_cases hq : quickWords.any (fun w => strHas w (lcStr msg)) <;>
      by_cases hs : slowWords.any (fun w => strHas w (lcStr msg)) <;>
      simp [hcui, hmeal, hq, hs, foldAdd_idem]


theorem toLower_eq_lbrack {c : Char} (h : c.toLower = '[') : c = '[' := by
  simp only [Char.toLower] at h
  split_ifs at h with hc
  · exfalso
    have hval : Nat.isValidChar (c.toNat + 32) := Or.inl (by omega)
    have h3 : (Char.ofNat (c.toNat + 32)).toNat = c.toNat + 32 := by
      rw [Char.toNat, Char.ofNat, dif_pos hval]
      rfl
    have h2 := congrArg Char.toNat h
    rw [h3] at h2
    have h4 : ('[' : Char).toNat = 91 := by decide
    rw [h4] at h2
    omega
  · exact h

theorem strStartsCI_lbrack_false {c : Char} (hc : c ≠ '[') (ps l : Str) :
    strStartsCI ('[' :: ps) (c :: l) = false := by
  simp only [strStartsCI, Bool.and_eq_false_iff]
  left
  simp only [beq_eq_false_iff_ne, ne_eq]
  intro hlow
  exact hc (toLower_eq_lbrack hlow)

theorem markerSplit_append_of_no_lbrack (pre rest : Str)
    (h : ∀ c ∈ pre, c ≠ '[') :
    markerSplit (pre ++ rest) = markerSplit rest := by
  induction pre with
  | nil => rfl
  | cons c tl ih =>
    have hc := h c (List.mem_cons_self c tl)
    have hstart : strStartsCI (strL "[response]") (c :: (tl ++ rest)) = false :=
      strStartsCI_lbrack_false hc _ _
    rw [List.cons_append, markerSplit, hstart]
    simp only [Bool.false_eq_true, if_false]
    exact ih (fun x hx => h x (List.mem_cons_of_mem c hx))

theorem strStartsCI_second_fail {c2 : Char} (h : (c2.toLower == 'r') = false) (X : Str) :
    strStartsCI (strL "[response]") ('[' :: c2 :: X) = false := by
  show (('['.toLower == '[') && ((c2.toLower == 'r') && strStartsCI (strL "esponse]") X)) = false
  rw [h]
  simp

theorem strStartsCI_append_of_le (pat : Str) :
    ∀ (pre : Str) (X : Str), pat.length ≤ pre.length →
      strStartsCI pat (pre ++ X) = strStartsCI pat pre := by
  induction pat with
  | nil => intro pre X _; rfl
  | cons p ps ih =>
    intro pre X hlen
    cases pre with
    | nil => simp at hlen
    | cons c cs =>
      show ((c.toLower == p) && strStartsCI ps (cs ++ X)) =
        ((c.toLower == p) && strStartsCI ps cs)
      rw [ih cs X (by simpa using hlen)]

theorem lstrip_idem (s : Str) : lstripStr (lstripStr s) = lstripStr s := by
  unfold lstripStr
  induction s with
  | nil => rfl
  | cons c tl ih =>
    by_cases hc : isSpaceCh c = true
    · simpa [List.dropWhile_cons, hc] using ih
    · simp [List.dropWhile_cons, hc]

theorem strip_lstrip (s : Str) : stripStr (lstripStr s) = stripStr s := by
  unfold stripStr
  rw [lstrip_idem]

theorem mem_lstrip {c : Char} {s : Str} (h : c ∈ lstripStr s) : c ∈ s :=
  (List.dropWhile_sublist _).subset h

theorem strHas_of_strHas_dropWhile {pat : Str} (p : Char → Bool) :
    ∀ {s : Str}, strHas pat (s.dropWhile p) = true → strHas pat s = true := by
  intro s
  induction s with
  | nil => intro h; simpa using h
  | cons c tl ih =>
    intro h
    by_cases hc : p c = true
    · rw [List.dropWhile_cons, if_pos hc] at h
      show (strStarts pat (c :: tl) || strHas pat tl) = true
      rw [ih h]
      simp
    · rwa [List.dropWhile_cons, if_neg hc] at h

theorem strStarts_lbrack_false {c : Char} (hc : c ≠ '[') (ps l : Str) :
    strStarts ('[' :: ps) (c :: l) = false := by
  show (('[' == c) && strStarts ps l) = false
  have : ('[' == c) = false := by
    simp only [beq_eq_false_iff_ne, ne_eq]
    exact fun h => hc h.symm
  rw [this]
  simp

theorem removeAllGo_id_of_no_lbrack :
    ∀ (fuel : Nat) (s : Str), (∀ c ∈ s, c ≠ '[') →
      removeAllGo (strL "[SEARCH_RECIPES]") fuel s = s := by
  intro fuel
  induction fuel with
  | zero => intro s _; cases s <;> rfl
  | succ f ih =>
    intro s h
    cases s with
    | nil => rfl
    | cons c tl =>
      have hc := h c (List.mem_cons_self c tl)
      have hfalse : strStarts (strL "[SEARCH_RECIPES]") (c :: tl) = false :=
        strStarts_lbrack_false hc _ _
      show (if strStarts (strL "[SEARCH_RECIPES]") (c :: tl) ∧
          ¬(strL "[SEARCH_RECIPES]").isEmpty then
            removeAllGo (strL "[SEARCH_RECIPES]") f (List.drop ((strL "[SEARCH_RECIPES]").length - 1) tl)
          else c :: removeAllGo (strL "[SEARCH_RECIPES]") f tl) = c :: tl
      rw [if_neg (by simp [hfalse])]
      rw [ih tl (fun x hx => h x (List.mem_cons_of_mem c hx))]

theorem removeAll_id_of_no_lbrack (s : Str) (h : ∀ c ∈ s, c ≠ '[') :
    removeAll (strL "[SEARCH_RECIPES]") s = s :=
  removeAllGo_id_of_no_lbrack s.length s h

theorem removeLookingGo_id_of_not_has :
    ∀ (fuel : Nat) (s : Str), strHas (strL "Looking for:") s = false →
      removeLookingGo fuel s = s := by
  intro fuel
  induction fuel with
  | zero => intro s _; cases s <;> rfl
  | succ f ih =>
    intro s h
    cases s with
    | nil => rfl
    | cons c tl =>
      have hsplit : (strStarts (strL "Looking for:") (c :: tl)
          || strHas (strL "Looking for:") tl) = false := h
      rw [Bool.or_eq_false_iff] at hsplit
      show (if strStarts (strL "Looking for:") (c :: tl) = true then
          removeLookingGo f ((List.drop 11 tl).dropWhile (fun x => !(x == '\n')))
        else c :: removeLookingGo f tl) = c :: tl
      rw [if_neg (by simp [hsplit.1])]
      rw [ih tl hsplit.2]

theorem removeLooking_id_of_not_has (s : Str) (h : strHas (strL "Looking for:") s = false) :
    removeLooking s = s :=
  removeLookingGo_id_of_not_has s.length s h


theorem markerSplit_buildTagged (intent goal body : Str)
    (hi : ∀ c ∈ intent, c ≠ '[') (hg : ∀ c ∈ goal, c ≠ '[') :
    markerSplit (buildTagged intent goal body) = some ('\n' :: body) := by
  unfold buildTagged
  set X1 := intent ++ (strL "\n[USER_GOAL_SUMMARY]: " ++
    (goal ++ (strL "\n[RESPONSE]:\n" ++ body))) with hX1
  -- step 1: the "[ASSISTANT_INTENT]: " opener fails the marker test at 'A'
  have e1 : strL "[ASSISTANT_INTENT]: " ++ X1 =
      '[' :: ('A' :: (strL "SSISTANT_INTENT]: " ++ X1)) := rfl
  have hc1 : strStartsCI (strL "[response]")
      ('[' :: ('A' :: (strL "SSISTANT_INTENT]: " ++ X1))) = false :=
    strStartsCI_second_fail (by decide) _
  rw [e1, markerSplit, hc1]
  simp only [Bool.false_eq_true, if_false]
  -- step 2: skip the rest of the opener (no '[')
  rw [show 'A' :: (strL "SSISTANT_INTENT]: " ++ X1) =
    (strL "ASSISTANT_INTENT]: ") ++ X1 from rfl]
  rw [markerSplit_append_of_no_lbrack _ _ (by decide)]
  -- step 3: skip the intent text (no '[' by hypothesis)
  rw [hX1, markerSplit_append_of_no_lbrack _ _ hi]
  -- step 4: skip the newline, then fail at '[' of "[USER_GOAL_SUMMARY]: "
  set X2 := goal ++ (strL "\n[RESPONSE]:\n" ++ body) with hX2
  have e2 : strL "\n[USER_GOAL_SUMMARY]: " ++ X2 =
      '\n' :: ('[' :: ('U' :: (strL "SER_GOAL_SUMMARY]: " ++ X2))) := rfl
  have hc2 : strStartsCI (strL "[response]")
      ('[' :: ('U' :: (strL "SER_GOAL_SUMMARY]: " ++ X2))) = false :=
    strStartsCI_second_fail (by decide) _
  rw [e2, markerSplit]
  rw [show strStartsCI (strL "[response]")
      ('\n' :: ('[' :: ('U' :: (strL "SER_GOAL_SUMMARY]: " ++ X2)))) = false from
    strStartsCI_lbrack_false (by decide) _ _]
  simp only [Bool.false_eq_true, if_false]
  rw [markerSplit, hc2]
  simp only [Bool.false_eq_true, if_false]
  rw [show 'U' :: (strL "SER_GOAL_SUMMARY]: " ++ X2) =
    (strL "USER_GOAL_SUMMARY]: ") ++ X2 from rfl]
  rw [markerSplit_append_of_no_lbrack _ _ (by decide)]
  -- step 5: skip the goal text, then the newline before the marker
  rw [hX2, markerSplit_append_of_no_lbrack _ _ hg]
  have e3 : strL "\n[RESPONSE]:\n" ++ body =
      '\n' :: (strL "[RESPONSE]:\n" ++ body) := rfl
  rw [e3, markerSplit]
  rw [show strStartsCI (strL "[response]") ('\n' :: (strL "[RESPONSE]:\n" ++ body)) = false from
    strStartsCI_lbrack_false (by decide) _ _]
  simp only [Bool.false_eq_true, if_false]
  -- step 6: the marker itself matches
  have e4 : strL "[RESPONSE]:\n" ++ body = '[' :: (strL "RESPONSE]:\n" ++ body) := rfl
  have hm : strStartsCI (strL "[response]") ('[' :: (strL "RESPONSE]:\n" ++ body)) = true := by
    have := strStartsCI_append_of_le (strL "[response]") (strL "[RESPONSE]:\n") body (by decide)
    rw [show ('[' :: (strL "RESPONSE]:\n" ++ body)) = (strL "[RESPONSE]:\n") ++ body from rfl]
    rw [this]
    decide
  rw [e4, markerSplit, hm]
  simp only [if_true]
  rfl

theorem strHas_lstrip_false {pat s : Str} (h : strHas pat s = false) :
    strHas pat (lstripStr s) = false := by
  cases hx : strHas pat (lstripStr s) with
  | false => rfl
  | true =>
    exfalso
    have := strHas_of_strHas_dropWhile (fun c => isSpaceCh c) hx
    rw [h] at this
    exact Bool.noConfusion this

/-- C5 (amended): for a well-formed tagged output whose intent/goal/body
carry no '[' character, whose body has no "Looking for:" line and is
non-blank, `strip_structured_tags` returns exactly the whitespace-stripped
text after the RESPONSE marker.  On this marker path only `[SEARCH_RECIPES]`
tags and "Looking for:" lines are stripped: reasoning-snapshot leakage after
the marker is NOT discarded and blank lines are NOT collapsed (both
transformations run only on the no-marker fallback path) — see the
counterexample. -/
theorem c5_round_trip (intent goal body : Str)
    (hi : ∀ c ∈ intent, c ≠ '[') (hg : ∀ c ∈ goal, c ≠ '[') (hb : ∀ c ∈ body, c ≠ '[')
    (hlook : strHas (strL "Looking for:") body = false)
    (hne : ¬stripStr body = []) :
    stripStructuredTags (buildTagged intent goal body) = stripStr body := by
  have hsplit := markerSplit_buildTagged intent goal body hi hg
  unfold stripStructuredTags
  rw [hsplit]
  have hl : lstripStr ('\n' :: body) = lstripStr body := by
    simp [lstripStr, List.dropWhile_cons, isSpaceCh]
  simp only [hl]
  have hstrip : stripStr (lstripStr body) = stripStr body := strip_lstrip body
  rw [hstrip, if_neg (by simp [hne])]
  unfold cleanResponseForDisplay
  rw [removeAll_id_of_no_lbrack _ (fun c hc => hb c (mem_lstrip hc))]
  rw [removeLooking_id_of_not_has _ (strHas_lstrip_false hlook)]
  exact hstrip

/-- C5 (witness): the round trip at a concrete well-formed tagged output. -/
theorem c5_witness :
    stripStructuredTags (buildTagged (strL "suggest_options") (strL "Find dinner ideas")
      (strL "How about tacos tonight?")) = strL "How about tacos tonight?" := by
  have h := c5_round_trip (strL "suggest_options") (strL "Find dinner ideas")
    (strL "How about tacos tonight?") (by decide) (by decide) (by decide) (by decide)
    (by decide)
  exact h.trans (by decide)

set_option maxRecDepth 8000 in
/-- C5 (counterexample): reasoning-snapshot text after the RESPONSE marker
is returned to the user verbatim, and five consecutive newlines after the
marker are not collapsed — the claim says the leakage is discarded and 3+
blank lines are collapsed to 2. -/
theorem c5_counterexample :
    stripStructuredTags (strL "[RESPONSE]:\nhi\n[REASONING SNAPSHOT]\nPhase: x") =
      strL "hi\n[REASONING SNAPSHOT]\nPhase: x" ∧
    stripStructuredTags (strL "[RESPONSE]:\na\n\n\n\n\nb") = strL "a\n\n\n\n\nb" := by
  decide

/-- C6 (amended): when the RESPONSE marker is absent,
`strip_structured_tags` never returns an empty string — if the cleaned text
is empty it returns the fixed safe fallback message.  On the marker path,
however, the emptiness check runs BEFORE tag-stripping, so the result can be
empty (see the counterexample). -/
theorem c6_no_marker_fallback (s : Str) (h : markerSplit s = none) :
    stripStructuredTags s ≠ [] ∧
    (collapseBlank (stripStr (removeSnapshotTail (cleanResponseForDisplay s))) = [] →
      stripStructuredTags s = fallbackMsg) := by
  unfold stripStructuredTags
  rw [h]
  show (if (collapseBlank (stripStr (removeSnapshotTail
      (cleanResponseForDisplay s)))).isEmpty = true then fallbackMsg
    else collapseBlank (stripStr (removeSnapshotTail (cleanResponseForDisplay s)))) ≠ [] ∧ _
  constructor
  · split_ifs with hc
    · decide
    · simpa using hc
  · intro hempty
    rw [if_pos (by simp [hempty])]

set_option maxRecDepth 8000 in
/-- C6 (counterexample): two raw outputs with a RESPONSE marker for which
`strip_structured_tags` returns the empty string, not the fallback: the
post-marker text passes the (pre-stripping) emptiness check but is erased
entirely by the tag/line stripping. -/
theorem c6_counterexample :
    stripStructuredTags (strL "[RESPONSE]:[SEARCH_RECIPES]") = [] ∧
    stripStructuredTags (strL "[RESPONSE]:\nLooking for: pasta") = [] := by
  decide

/-- C6 (witness): the no-marker guarantee at a concrete input. -/
theorem c6_witness :
    markerSplit (strL "hello there") = none ∧
    stripStructuredTags (strL "hello there") ≠ [] :=
  ⟨by decide, (c6_no_marker_fallback (strL "hello there") (by decide)).1⟩

end Feast
